import Mathlib

/-!
Verification of the cart/checkout subsystem of the aleenascuisine frontend.

The definitions below are a shallow embedding of the TypeScript source:
* `CartItem`, `CartState`, `CartAction`, `cartReducer`, `mergeServerItem`,
  `syncCart` embed `src/frontend/src/context/CartContext.tsx`;
* `CartTotals`, `CartLineItem`, `CartSnapshot`, `OrderDetail`,
  `OrderCreatePayload`, `normalizeOrderPayload`, `createOrderRequest` embed
  `src/frontend/src/api/orders.ts`;
* `requestHeaders`, `buildUrl`, `headersSet`, `headersGet` embed the HTTP
  client wrapper (`request` in the api client);
* `handleSubmit` and `paymentHandler` embed `CheckoutPage.handleSubmit`
  and the Razorpay success handler of the checkout page.

JavaScript numbers are modelled as exact rationals (`Rat`) for money and as
integers (`Int`) for quantities; `Math.round x` coincides with Mathlib's
`round` on rationals (both are `⌊x + 1/2⌋`).  Network calls are oracles
passed in as explicit arguments (`Except`/`Option` values), and each model
function records whether the network was consulted.
-/

namespace Aleenas

/-- JavaScript `a || b` on strings: `""` is falsy. -/
def jsOrString (a b : String) : String :=
  if a = "" then b else a

/-- JavaScript `a || b` where `a` is a possibly-undefined string
(`undefined` and `""` are both falsy). -/
def jsOrOptString (a : Option String) (b : String) : String :=
  jsOrString (a.getD "") b

/-- An addon line attached to a cart item (client-only display data). -/
structure Addon where
  id : String
  name : String
  price : Rat
  deriving Repr, DecidableEq

/-- `CartItem` from `CartContext.tsx`: a client-side cart line. -/
structure CartItem where
  id : String
  name : String
  price : Rat
  quantity : Int
  imageUrl : Option String := none
  notes : Option String := none
  addons : Option (List Addon) := none
  cartItemId : Option String := none
  deriving Repr, DecidableEq

/-- `CartTotals` from `orders.ts`: server-computed totals. -/
structure CartTotals where
  subtotal : Rat
  taxes : Rat
  shipping : Rat
  total : Rat
  deriving Repr, DecidableEq

/-- `CartLineItem` from `orders.ts`: a server-side cart line. -/
structure CartLineItem where
  cartItemId : String
  cakeId : String
  name : Option String := none
  quantity : Int
  priceEach : Rat
  lineTotal : Rat
  deriving Repr, DecidableEq

/-- `CartSnapshot` from `orders.ts`: the server-authoritative cart. -/
structure CartSnapshot where
  cartId : String
  cartToken : Option String := none
  customerId : Option String := none
  items : List CartLineItem
  totals : CartTotals
  updatedAt : String
  deriving Repr, DecidableEq

/-- `CartState` from `CartContext.tsx`. -/
structure CartState where
  items : List CartItem
  cartId : Option String := none
  cartToken : Option String := none
  totals : Option CartTotals := none
  syncing : Bool := false
  deriving Repr, DecidableEq

/-- `initialState` from `CartContext.tsx`. -/
def initialState : CartState :=
  { items := [], cartId := none, cartToken := none, totals := none, syncing := false }

/-- `CartAction` from `CartContext.tsx`. -/
inductive CartAction where
  | restore (payload : CartState)
  | add (payload : CartItem)
  | remove (payload : String)
  | updateQuantity (id : String) (quantity : Int)
  | clear
  | syncing (payload : Bool)
  | applyServer (snapshot : CartSnapshot) (mergedItems : List CartItem)
  | resetIdentifiers
  deriving Repr, DecidableEq

/-- `cartReducer` from `CartContext.tsx`, translated case by case. -/
def cartReducer (state : CartState) (action : CartAction) : CartState :=
  match action with
  | .restore payload =>
      { payload with syncing := false }
  | .add item =>
      let existing := state.items.find? (fun entry => entry.id == item.id)
      let nextItems :=
        match existing with
        | some _ =>
            state.items.map (fun entry =>
              if entry.id == item.id then
                { entry with quantity := entry.quantity + item.quantity }
              else entry)
        | none => state.items ++ [item]
      { state with items := nextItems, totals := none }
  | .remove id =>
      { state with
        items := state.items.filter (fun item => item.id != id),
        totals := none }
  | .updateQuantity id quantity =>
      let nextItems :=
        (state.items.map (fun item =>
          if item.id == id then { item with quantity := quantity } else item)).filter
          (fun item => item.quantity > 0)
      { state with items := nextItems, totals := none }
  | .clear =>
      { items := [], cartId := none, cartToken := none, totals := none, syncing := false }
  | .syncing b =>
      { state with syncing := b }
  | .applyServer snapshot mergedItems =>
      { state with
        items := mergedItems,
        cartId := some snapshot.cartId,
        cartToken := snapshot.cartToken,
        totals := some snapshot.totals }
  | .resetIdentifiers =>
      { state with cartId := none, cartToken := none, totals := none }

/-- The merge of one server line into the local items, from the
`mergedItems` computation inside `syncCart`. -/
def mergeServerItem (items : List CartItem) (serverItem : CartLineItem) : CartItem :=
  let existing := items.find? (fun cartItem => cartItem.id == serverItem.cakeId)
  { id := serverItem.cakeId
    name := jsOrOptString serverItem.name
      (jsOrOptString (existing.map (fun e => e.name)) "")
    price := serverItem.priceEach
    quantity := serverItem.quantity
    imageUrl := existing.bind (fun e => e.imageUrl)
    notes := existing.bind (fun e => e.notes)
    addons := existing.bind (fun e => e.addons)
    cartItemId := some serverItem.cartItemId }

/-- Result of a `syncCart` call: the state after all dispatches, the
returned snapshot (`undefined` on failure or empty cart), and whether
`upsertCart` was invoked. -/
structure SyncOutcome where
  state : CartState
  result : Option CartSnapshot
  networkCalled : Bool
  deriving Repr, DecidableEq

/-- `syncCart` from `CartContext.tsx`.  The remote `upsertCart` call is the
oracle `upsert`; dispatches are applied in source order. -/
def syncCart (state : CartState) (upsert : Except Unit CartSnapshot) : SyncOutcome :=
  if state.items.isEmpty then
    let s1 := cartReducer state .resetIdentifiers
    let s2 := cartReducer s1 (.syncing false)
    { state := s2, result := none, networkCalled := false }
  else
    let s1 := cartReducer state (.syncing true)
    match upsert with
    | .error _ =>
        { state := cartReducer s1 (.syncing false), result := none, networkCalled := true }
    | .ok snapshot =>
        let mergedItems := snapshot.items.map (mergeServerItem state.items)
        let s2 := cartReducer s1 (.applyServer snapshot mergedItems)
        { state := cartReducer s2 (.syncing false), result := some snapshot,
          networkCalled := true }

/-- `OrderDetail` from `orders.ts` (the camelCase view model). -/
structure OrderDetail where
  orderId : String
  status : String
  paymentStatus : String
  orderTotal : Rat
  currency : String
  customerId : Option String := none
  items : List CartLineItem
  totals : CartTotals
  providerOrderId : Option String := none
  providerPaymentId : Option String := none
  paymentId : Option String := none
  idempotencyKey : Option String := none
  createdAt : String
  updatedAt : String
  reservationExpiresAt : Option String := none
  inventoryReleased : Bool
  isTest : Bool
  paymentIsTest : Bool
  deriving Repr, DecidableEq

/-- `OrderCreatePayload` from `orders.ts`. -/
structure OrderCreatePayload where
  cartId : String
  customerId : Option String := none
  idempotencyKey : String
  isTest : Option Bool := none
  deriving Repr, DecidableEq

/-- `OrderCreateResult` from `orders.ts`. -/
structure OrderCreateResult where
  order : OrderDetail
  providerOrderId : String
  deriving Repr, DecidableEq

/-- The snake_case JSON body produced by `normalizeOrderPayload` in
`orders.ts` (`??` turns absent optionals into `null`, kept as `none`). -/
structure OrderWireBody where
  idempotency_key : String
  cart_id : String
  customer_id : Option String
  is_test : Option Bool
  deriving Repr, DecidableEq

/-- `normalizeOrderPayload` from `orders.ts`. -/
def normalizeOrderPayload (payload : OrderCreatePayload) : OrderWireBody :=
  { idempotency_key := payload.idempotencyKey
    cart_id := payload.cartId
    customer_id := payload.customerId
    is_test := payload.isTest }

/-- ASCII lowercase of a header name, character by character. -/
def lowerName (s : String) : String :=
  String.mk (s.data.map Char.toLower)

/-- Case-insensitive header-name equality, as used by the `Headers` object. -/
def headerKeyEq (a b : String) : Bool :=
  lowerName a == lowerName b

/-- `Headers.get`: the value stored under a name, case-insensitively. -/
def headersGet (hs : List (String × String)) (k : String) : Option String :=
  (hs.find? (fun p => headerKeyEq p.1 k)).map (fun p => p.2)

/-- `Headers.set`: replace any entry stored under the name, case-insensitively. -/
def headersSet (hs : List (String × String)) (k v : String) : List (String × String) :=
  hs.filter (fun p => !headerKeyEq p.1 k) ++ [(k, v)]

/-- The header-building part of `request` in the HTTP client wrapper:
start from `options?.headers`, force a `Content-Type` for non-FormData
bodies, and attach the bearer token unless `skipAuth`. -/
def requestHeaders (optionsHeaders : List (String × String)) (skipAuth : Bool)
    (bodyIsFormData : Bool) (authToken : Option String) : List (String × String) :=
  let h1 :=
    if bodyIsFormData then optionsHeaders
    else
      headersSet optionsHeaders "Content-Type"
        (jsOrOptString (headersGet optionsHeaders "Content-Type") "application/json")
  if !skipAuth then
    match authToken with
    | some t => headersSet h1 "Authorization" ("Bearer " ++ t)
    | none => h1
  else h1

/-- `buildUrl` from the HTTP client wrapper. -/
def buildUrl (apiBaseUrl path : String) : String :=
  if apiBaseUrl = "" then path
  else if path.startsWith "http" then path
  else apiBaseUrl ++ path

/-- The HTTP request issued by `createOrder`: method, url, headers and the
JSON body it serializes. -/
structure OrderHttpRequest where
  url : String
  method : String
  headers : List (String × String)
  body : OrderWireBody
  deriving Repr, DecidableEq

/-- `createOrder` from `orders.ts` as the request it puts on the wire:
`post("/orders", normalizeOrderPayload payload)` with no options, so the
only headers are those `request` itself sets. -/
def createOrderRequest (apiBaseUrl : String) (authToken : Option String)
    (payload : OrderCreatePayload) : OrderHttpRequest :=
  { url := buildUrl apiBaseUrl "/orders"
    method := "POST"
    headers := requestHeaders [] false false authToken
    body := normalizeOrderPayload payload }

/-- The configuration handed to `openRazorpayCheckout` by the checkout page
(the `handler` callback is modelled separately as `paymentHandler`). -/
structure RazorpayOptions where
  key : String
  amount : Int
  currency : String
  name : String
  description : String
  order_id : String
  notes : Option String := none
  prefill_name : Option String := none
  prefill_email : Option String := none
  prefill_contact : Option String := none
  deriving Repr, DecidableEq

/-- The inputs of one checkout submission: form fields, the signed-in user,
the cart id held by the store, config, and the freshly generated uuid. -/
structure CheckoutInput where
  address : String
  contactPhone : String
  notes : String
  userId : Option String := none
  userName : Option String := none
  userEmail : Option String := none
  storeCartId : Option String := none
  razorpayMode : String
  razorpayKeyId : String
  uuid : String
  deriving Repr, DecidableEq

/-- Observable outcome of `handleSubmit` up to the point the payment widget
is opened: the error message set (if any), the payload sent to
`createOrder` (if it was invoked), and the widget options and order (if it
was opened). -/
structure SubmitOutcome where
  error : Option String
  orderPayload : Option OrderCreatePayload
  widget : Option RazorpayOptions
  order : Option OrderDetail
  deriving Repr, DecidableEq

/-- `Math.round` on exact numbers: `⌊x + 1/2⌋`, matching JavaScript. -/
def mathRound (x : Rat) : Int :=
  round x

/-- JavaScript `x || 0` on a number. -/
def jsOrZero (x : Rat) : Rat :=
  if x = 0 then 0 else x

/-- `CheckoutPage.handleSubmit` up to opening the payment widget.  The
pre-order `syncCart` result and the `createOrder` call are oracles; the
thrown `"Cart not ready"` error is routed through the `catch` branch the
way the source's `err.message || "Checkout failed"` does. -/
def handleSubmit (inp : CheckoutInput) (syncResult : Option CartSnapshot)
    (orderApi : OrderCreatePayload → Except String OrderCreateResult) : SubmitOutcome :=
  if inp.address = "" then
    { error := some "Delivery address is required", orderPayload := none,
      widget := none, order := none }
  else if inp.contactPhone = "" then
    { error := some "Contact phone number is required", orderPayload := none,
      widget := none, order := none }
  else
    let effectiveCartId := (syncResult.map (fun s => s.cartId)).or inp.storeCartId
    match effectiveCartId with
    | none =>
        { error := some (jsOrString "Cart not ready. Please try again." "Checkout failed"),
          orderPayload := none, widget := none, order := none }
    | some cid =>
        let payload : OrderCreatePayload :=
          { cartId := cid
            customerId := inp.userId
            idempotencyKey := inp.uuid
            isTest := some (inp.razorpayMode ≠ "live") }
        match orderApi payload with
        | .error e =>
            { error := some (jsOrString e "Checkout failed"),
              orderPayload := some payload, widget := none, order := none }
        | .ok result =>
            let amountPaise := mathRound (jsOrZero result.order.totals.total * 100)
            { error := none
              orderPayload := some payload
              widget := some
                { key := inp.razorpayKeyId
                  amount := amountPaise
                  currency := result.order.currency
                  name := "Aleena's Cuisine"
                  description := "Order " ++ result.order.orderId
                  order_id := result.providerOrderId
                  notes := if inp.notes = "" then none else some inp.notes
                  prefill_name := inp.userName
                  prefill_email := inp.userEmail
                  prefill_contact := if inp.contactPhone = "" then none else some inp.contactPhone }
              order := some result.order }

/-- Observable outcome of the payment widget's success `handler`. -/
structure HandlerOutcome where
  cartCleared : Bool
  error : Option String
  navigatedTo : Option String
  loading : Bool
  deriving Repr, DecidableEq

/-- The `handler` callback passed to the payment widget by
`CheckoutPage.handleSubmit`: re-fetch the order, then clear the cart and
navigate; on failure set the error and leave the cart alone. -/
def paymentHandler (fetchResult : Except String OrderDetail) : HandlerOutcome :=
  match fetchResult with
  | .ok _ =>
      { cartCleared := true, error := none, navigatedTo := some "/order-success",
        loading := false }
  | .error e =>
      { cartCleared := false
        error := some (jsOrString e
          "Payment captured, but we could not confirm the order. Please contact support.")
        navigatedTo := none
        loading := false }

/-- The cart state after the payment handler runs against `state`: `CLEAR`
is dispatched exactly when the handler clears the cart. -/
def handlerCartState (state : CartState) (fetchResult : Except String OrderDetail) : CartState :=
  if (paymentHandler fetchResult).cartCleared then cartReducer state .clear else state

/-! ## Theorems -/

/-- Rounding the `|| 0`-guarded total agrees with rounding the total. -/
theorem mathRound_jsOrZero (t : Rat) : mathRound (jsOrZero t * 100) = round (t * 100) := by
  unfold mathRound jsOrZero
  split
  · simp_all
  · rfl

/-- C1: whenever a checkout submission opens the payment widget, the amount
it passes is the order's server-computed total converted to minor units,
`round (order.totals.total * 100)` — never a locally computed figure. -/
theorem checkout_amount_is_server_total (inp : CheckoutInput)
    (syncResult : Option CartSnapshot)
    (orderApi : OrderCreatePayload → Except String OrderCreateResult)
    (w : RazorpayOptions) (order : OrderDetail)
    (hw : (handleSubmit inp syncResult orderApi).widget = some w)
    (ho : (handleSubmit inp syncResult orderApi).order = some order) :
    w.amount = round (order.totals.total * 100) := by
  unfold handleSubmit at hw ho
  by_cases ha : inp.address = ""
  · rw [if_pos ha] at hw
    exact absurd hw (by simp)
  rw [if_neg ha] at hw ho
  by_cases hp : inp.contactPhone = ""
  · rw [if_pos hp] at hw
    exact absurd hw (by simp)
  rw [if_neg hp] at hw ho
  rcases hcid : (syncResult.map (fun s => s.cartId)).or inp.storeCartId with _ | cid
  · rw [hcid] at hw
    exact absurd hw (by simp)
  · rw [hcid] at hw ho
    dsimp only at hw ho
    rcases hres : orderApi
        { cartId := cid, customerId := inp.userId, idempotencyKey := inp.uuid,
          isTest := some (inp.razorpayMode ≠ "live") } with e | result
    · rw [hres] at hw
      exact absurd hw (by simp)
    · rw [hres] at hw ho
      dsimp only at hw ho
      have hwq := Option.some.inj hw
      have hoq := Option.some.inj ho
      subst hoq
      rw [← hwq]
      exact mathRound_jsOrZero result.order.totals.total

/-- The spec scenario's cart snapshot: one line `cake-1`, price 1000,
quantity 2, with server-computed totals
`{subtotal 2000, taxes 100, shipping 50, total 2150}`. -/
def scenarioSnapshot : CartSnapshot :=
  { cartId := "cart-1", cartToken := none, customerId := none,
    items := [{ cartItemId := "ci-1", cakeId := "cake-1", name := some "Cake",
                quantity := 2, priceEach := 1000, lineTotal := 2000 }],
    totals := { subtotal := 2000, taxes := 100, shipping := 50, total := 2150 },
    updatedAt := "t0" }

/-- The order the scenario's order service returns for that cart. -/
def scenarioOrder : OrderDetail :=
  { orderId := "ord-1", status := "created", paymentStatus := "pending",
    orderTotal := 2150, currency := "INR", customerId := none,
    items := [{ cartItemId := "ci-1", cakeId := "cake-1", name := some "Cake",
                quantity := 2, priceEach := 1000, lineTotal := 2000 }],
    totals := { subtotal := 2000, taxes := 100, shipping := 50, total := 2150 },
    providerOrderId := some "rzp-ord-1", providerPaymentId := none,
    paymentId := none, idempotencyKey := some "uuid-1",
    createdAt := "t0", updatedAt := "t0", reservationExpiresAt := none,
    inventoryReleased := false, isTest := true, paymentIsTest := true }

/-- The checkout form input used in the scenario. -/
def scenarioInput : CheckoutInput :=
  { address := "12 Baker St", contactPhone := "9999999999", notes := "",
    userId := none, userName := none, userEmail := none, storeCartId := none,
    razorpayMode := "test", razorpayKeyId := "rzp_test_key", uuid := "uuid-1" }

/-- The widget options the scenario's submission ends up opening. -/
def scenarioWidget : RazorpayOptions :=
  { key := "rzp_test_key", amount := mathRound (jsOrZero scenarioOrder.totals.total * 100),
    currency := "INR", name := "Aleena's Cuisine", description := "Order " ++ "ord-1",
    order_id := "rzp-ord-1", notes := none, prefill_name := none,
    prefill_email := none, prefill_contact := some "9999999999" }

/-- C1 witness: in the spec's scenario the widget amount is 215000 minor
units (the server total 2150 times 100), not the locally computed 200000. -/
theorem checkout_amount_is_server_total_witness :
    scenarioWidget.amount = round (scenarioOrder.totals.total * 100)
    ∧ scenarioWidget.amount = 215000 ∧ scenarioWidget.amount ≠ 200000 := by
  have hmain : scenarioWidget.amount = round (scenarioOrder.totals.total * 100) :=
    checkout_amount_is_server_total scenarioInput (some scenarioSnapshot)
      (fun _ => .ok { order := scenarioOrder, providerOrderId := "rzp-ord-1" })
      scenarioWidget scenarioOrder rfl rfl
  have hval : round (scenarioOrder.totals.total * 100) = (215000 : Int) := by
    rw [round_eq]
    norm_num [scenarioOrder]
  exact ⟨hmain, hmain.trans hval, by rw [hmain, hval]; decide⟩

/-- C4: the payment-success handler clears the cart exactly when the order
re-fetch succeeds; when the fetch throws, the checkout ends in the error
state with the thrown message (or the support-contact default) and the
cart state is untouched. -/
theorem payment_handler_clear_iff_fetch_ok (r : Except String OrderDetail)
    (state : CartState) :
    ((paymentHandler r).cartCleared = true ↔ ∃ o, r = .ok o)
    ∧ (∀ e, r = .error e →
        (paymentHandler r).error = some (jsOrString e
          "Payment captured, but we could not confirm the order. Please contact support.")
        ∧ (paymentHandler r).navigatedTo = none
        ∧ handlerCartState state r = state)
    ∧ (∀ o, r = .ok o →
        (paymentHandler r).error = none
        ∧ (paymentHandler r).navigatedTo = some "/order-success"
        ∧ handlerCartState state r = cartReducer state .clear) := by
  cases r <;> simp [paymentHandler, handlerCartState]

/-- C4 witness: with one item in the cart and a failing re-fetch, the error
is the support-contact message and the cart state is unchanged; a
successful re-fetch clears the cart. -/
theorem payment_handler_clear_iff_fetch_ok_witness :
    ((paymentHandler (.error "")).error = some (jsOrString ""
      "Payment captured, but we could not confirm the order. Please contact support.")
    ∧ (paymentHandler (.error "")).navigatedTo = none
    ∧ handlerCartState
        { items := [{ id := "cake-1", name := "Cake", price := 1000, quantity := 2 }] }
        (.error "") =
        { items := [{ id := "cake-1", name := "Cake", price := 1000, quantity := 2 }] }) :=
  (payment_handler_clear_iff_fetch_ok (.error "")
    { items := [{ id := "cake-1", name := "Cake", price := 1000, quantity := 2 }] }).2.1
    "" rfl

/-- C5: when the cart is non-empty and the remote upsert fails, `syncCart`
returns `undefined`, the network was consulted, and the resulting state
keeps items, cartId, cartToken and totals exactly as before, with the
transient syncing flag back at `false`. -/
theorem syncCart_failure_preserves_state (state : CartState)
    (h : state.items ≠ []) :
    syncCart state (.error ()) =
      { state := { state with syncing := false }, result := none,
        networkCalled := true } := by
  unfold syncCart
  rw [if_neg (by simpa [List.isEmpty_iff] using h)]
  rfl

/-- C5 witness: a one-item cart hit by a failed upsert. -/
theorem syncCart_failure_preserves_state_witness :
    syncCart
      { items := [{ id := "cake-1", name := "Cake", price := 1000, quantity := 2 }],
        cartId := some "cart-1", cartToken := some "tok-1",
        totals := some { subtotal := 2000, taxes := 100, shipping := 50, total := 2150 },
        syncing := false }
      (.error ()) =
      { state :=
          { items := [{ id := "cake-1", name := "Cake", price := 1000, quantity := 2 }],
            cartId := some "cart-1", cartToken := some "tok-1",
            totals := some { subtotal := 2000, taxes := 100, shipping := 50, total := 2150 },
            syncing := false },
        result := none, networkCalled := true } :=
  syncCart_failure_preserves_state _ (by decide)

/-- C6: on an empty cart, `syncCart` makes no network call, clears cartId,
cartToken and totals, and returns `undefined`. -/
theorem syncCart_empty_no_network (state : CartState)
    (upsert : Except Unit CartSnapshot) (h : state.items = []) :
    syncCart state upsert =
      { state := { state with cartId := none, cartToken := none, totals := none,
                              syncing := false },
        result := none, networkCalled := false } := by
  unfold syncCart
  rw [if_pos (by simpa [List.isEmpty_iff] using h)]
  rfl

/-- C6 witness: the empty initial cart, with an upsert oracle that would
succeed if it were ever consulted. -/
theorem syncCart_empty_no_network_witness :
    syncCart initialState
      (.ok { cartId := "cart-9", items := [],
             totals := { subtotal := 0, taxes := 0, shipping := 0, total := 0 },
             updatedAt := "t0" }) =
      { state := initialState, result := none, networkCalled := false } :=
  syncCart_empty_no_network _ _ rfl

/-- C9: if the pre-order sync yields no snapshot and the store holds no
cartId, checkout fails with "Cart not ready. Please try again." and no
order-creation request is issued. -/
theorem checkout_requires_cart_id (inp : CheckoutInput)
    (orderApi : OrderCreatePayload → Except String OrderCreateResult)
    (ha : inp.address ≠ "") (hp : inp.contactPhone ≠ "")
    (hc : inp.storeCartId = none) :
    (handleSubmit inp none orderApi).error = some "Cart not ready. Please try again."
    ∧ (handleSubmit inp none orderApi).orderPayload = none := by
  unfold handleSubmit
  simp [ha, hp, hc, jsOrString]

/-- C9 witness: a filled-in form with no snapshot and no stored cart id. -/
theorem checkout_requires_cart_id_witness :
    (handleSubmit
      { address := "12 Baker St", contactPhone := "9999999999", notes := "",
        storeCartId := none, razorpayMode := "test", razorpayKeyId := "k",
        uuid := "uuid-2" }
      none (fun _ => .error "unreachable")).error =
        some "Cart not ready. Please try again."
    ∧ (handleSubmit
      { address := "12 Baker St", contactPhone := "9999999999", notes := "",
        storeCartId := none, razorpayMode := "test", razorpayKeyId := "k",
        uuid := "uuid-2" }
      none (fun _ => .error "unreachable")).orderPayload = none :=
  checkout_requires_cart_id _ _ (by decide) (by decide) rfl

/-- C7: on a successful sync, the new item list is the server lines merged
against the old local items; a merged line whose product id matches a
pre-existing local item keeps that item's client-only `imageUrl`, `notes`
and `addons`, while taking `quantity`, `priceEach` and `cartItemId` from
the server snapshot. -/
theorem syncCart_merge_preserves_client_fields (state : CartState)
    (snapshot : CartSnapshot) (h : state.items ≠ []) :
    (syncCart state (.ok snapshot)).state.items
      = snapshot.items.map (mergeServerItem state.items)
    ∧ ∀ s ∈ snapshot.items, ∀ e,
        state.items.find? (fun it => it.id == s.cakeId) = some e →
        (mergeServerItem state.items s).imageUrl = e.imageUrl
        ∧ (mergeServerItem state.items s).notes = e.notes
        ∧ (mergeServerItem state.items s).addons = e.addons
        ∧ (mergeServerItem state.items s).quantity = s.quantity
        ∧ (mergeServerItem state.items s).price = s.priceEach
        ∧ (mergeServerItem state.items s).cartItemId = some s.cartItemId := by
  constructor
  · unfold syncCart
    rw [if_neg (by simpa [List.isEmpty_iff] using h)]
    rfl
  · intro s hs e he
    unfold mergeServerItem
    rw [he]
    exact ⟨rfl, rfl, rfl, rfl, rfl, rfl⟩

/-- The local cart used by the C7 witness: one `cake-1` line carrying
client-only image, notes and addons. -/
def mergeWitnessState : CartState :=
  { items := [{ id := "cake-1", name := "Cake", price := 1000, quantity := 2,
                imageUrl := some "https://img/cake-1.jpg",
                notes := some "less sugar",
                addons := some [{ id := "addon-1", name := "Candles", price := 50 }],
                cartItemId := none }],
    cartId := none, cartToken := none, totals := none, syncing := false }

/-- The snapshot the C7 witness syncs against: the server echoes `cake-1`
with its own `cartItemId`, quantity and unit price. -/
def mergeWitnessSnapshot : CartSnapshot :=
  { cartId := "cart-1", cartToken := some "tok-1", customerId := none,
    items := [{ cartItemId := "ci-1", cakeId := "cake-1", name := some "Cake",
                quantity := 3, priceEach := 950, lineTotal := 2850 }],
    totals := { subtotal := 2850, taxes := 140, shipping := 60, total := 3050 },
    updatedAt := "t1" }

/-- C7 witness: after merging the concrete snapshot, the `cake-1` line
keeps the local image, notes and addons and takes the server quantity,
unit price and cart-item id. -/
theorem syncCart_merge_preserves_client_fields_witness :
    (syncCart mergeWitnessState (.ok mergeWitnessSnapshot)).state.items
      = mergeWitnessSnapshot.items.map (mergeServerItem mergeWitnessState.items)
    ∧ ((mergeServerItem mergeWitnessState.items
          { cartItemId := "ci-1", cakeId := "cake-1", name := some "Cake",
            quantity := 3, priceEach := 950, lineTotal := 2850 }).imageUrl
          = some "https://img/cake-1.jpg"
      ∧ (mergeServerItem mergeWitnessState.items
          { cartItemId := "ci-1", cakeId := "cake-1", name := some "Cake",
            quantity := 3, priceEach := 950, lineTotal := 2850 }).notes
          = some "less sugar"
      ∧ (mergeServerItem mergeWitnessState.items
          { cartItemId := "ci-1", cakeId := "cake-1", name := some "Cake",
            quantity := 3, priceEach := 950, lineTotal := 2850 }).addons
          = some [{ id := "addon-1", name := "Candles", price := 50 }]
      ∧ (mergeServerItem mergeWitnessState.items
          { cartItemId := "ci-1", cakeId := "cake-1", name := some "Cake",
            quantity := 3, priceEach := 950, lineTotal := 2850 }).quantity = 3
      ∧ (mergeServerItem mergeWitnessState.items
          { cartItemId := "ci-1", cakeId := "cake-1", name := some "Cake",
            quantity := 3, priceEach := 950, lineTotal := 2850 }).price = 950
      ∧ (mergeServerItem mergeWitnessState.items
          { cartItemId := "ci-1", cakeId := "cake-1", name := some "Cake",
            quantity := 3, priceEach := 950, lineTotal := 2850 }).cartItemId
          = some "ci-1") := by
  have hmain := syncCart_merge_preserves_client_fields mergeWitnessState
    mergeWitnessSnapshot (by decide)
  refine ⟨hmain.1, ?_⟩
  have hmem :
      ({ cartItemId := "ci-1", cakeId := "cake-1", name := some "Cake",
         quantity := 3, priceEach := 950, lineTotal := 2850 } : CartLineItem)
        ∈ mergeWitnessSnapshot.items := by
    simp [mergeWitnessSnapshot]
  have hfind :
      mergeWitnessState.items.find? (fun it => it.id == "cake-1") =
        some { id := "cake-1", name := "Cake", price := 1000, quantity := 2,
               imageUrl := some "https://img/cake-1.jpg",
               notes := some "less sugar",
               addons := some [{ id := "addon-1", name := "Candles", price := 50 }],
               cartItemId := none } := by
    rfl
  exact hmain.2 _ hmem _ hfind

/-- All quantities in an item list are strictly positive. -/
def itemsPositive (items : List CartItem) : Bool :=
  items.all (fun it => 0 < it.quantity)

/-- The reducer actions dispatched by the store operations `addItem`,
`removeItem` and `updateQuantity`. -/
def isLocalEdit : CartAction → Bool
  | .add _ => true
  | .remove _ => true
  | .updateQuantity _ _ => true
  | _ => false

/-- An `ADD` action carries a positive quantity (other actions trivially). -/
def addPositive : CartAction → Bool
  | .add i => 0 < i.quantity
  | _ => true

theorem itemsPositive_iff {l : List CartItem} :
    itemsPositive l = true ↔ ∀ it ∈ l, 0 < it.quantity := by
  simp [itemsPositive]

/-- One local-edit step with a positive `ADD` payload preserves
positivity of all quantities. -/
theorem localEdit_step_itemsPositive (s : CartState) (a : CartAction)
    (hs : itemsPositive s.items = true)
    (h1 : isLocalEdit a = true) (h2 : addPositive a = true) :
    itemsPositive (cartReducer s a).items = true := by
  rw [itemsPositive_iff] at hs ⊢
  cases a with
  | add i =>
      have hipos : (0 : Int) < i.quantity := by simpa [addPositive] using h2
      intro it hit
      unfold cartReducer at hit
      dsimp only at hit
      rcases hfind : s.items.find? (fun entry => entry.id == i.id) with _ | e
      · rw [hfind] at hit
        dsimp only at hit
        rcases List.mem_append.1 hit with hmem | hmem
        · exact hs it hmem
        · rw [List.mem_singleton.1 hmem]
          exact hipos
      · rw [hfind] at hit
        dsimp only at hit
        rcases List.mem_map.1 hit with ⟨y, hy, rfl⟩
        by_cases hid : (y.id == i.id) = true
        · simp only [hid, if_true]
          exact add_pos (hs y hy) hipos
        · simp only [hid, if_false]
          exact hs y hy
  | remove id =>
      intro it hit
      unfold cartReducer at hit
      dsimp only at hit
      exact hs it (List.mem_of_mem_filter hit)
  | updateQuantity id q =>
      intro it hit
      unfold cartReducer at hit
      dsimp only at hit
      have := List.of_mem_filter hit
      simpa using this
  | restore p => simp [isLocalEdit] at h1
  | clear => simp [isLocalEdit] at h1
  | syncing b => simp [isLocalEdit] at h1
  | applyServer sn m => simp [isLocalEdit] at h1
  | resetIdentifiers => simp [isLocalEdit] at h1

/-- C3 (amended): starting from a state whose items all have positive
quantity, any sequence of `addItem`/`removeItem`/`updateQuantity` actions
in which every `addItem` payload has positive quantity leaves every item
quantity strictly positive. -/
theorem cart_quantity_invariant (s : CartState) (acts : List CartAction)
    (hs : itemsPositive s.items = true)
    (hacts : ∀ a ∈ acts, isLocalEdit a = true ∧ addPositive a = true) :
    itemsPositive (acts.foldl cartReducer s).items = true := by
  induction acts generalizing s with
  | nil => exact hs
  | cons a rest ih =>
      have ha := hacts a (List.mem_cons_self a rest)
      exact ih (cartReducer s a)
        (localEdit_step_itemsPositive s a hs ha.1 ha.2)
        (fun b hb => hacts b (List.mem_cons_of_mem a hb))

/-- C3 counterexample: with arbitrary arguments the claim fails — a single
`addItem` whose payload has quantity 0 leaves an entry with quantity ≤ 0
in the list. -/
theorem cart_quantity_invariant_counterexample :
    isLocalEdit (.add { id := "cake-1", name := "Cake", price := 1000, quantity := 0 }) = true
    ∧ ((cartReducer initialState
        (.add { id := "cake-1", name := "Cake", price := 1000, quantity := 0 })).items.any
        (fun it => it.quantity ≤ 0)) = true := by
  constructor
  · rfl
  · rfl

/-- C3 witness: a concrete mixed sequence of positive adds, a quantity
update to zero and a removal keeps all quantities positive. -/
theorem cart_quantity_invariant_witness :
    itemsPositive
      (([.add { id := "a", name := "A", price := 1000, quantity := 2 },
         .add { id := "a", name := "A", price := 1000, quantity := 3 },
         .add { id := "b", name := "B", price := 500, quantity := 1 },
         .updateQuantity "a" 0,
         .remove "b"] : List CartAction).foldl cartReducer initialState).items = true :=
  cart_quantity_invariant initialState _ (by decide) (by decide)

/-- C8 (amended): if the state holds no line for the product id, two
`addItem` calls with that product id and quantities q1, q2 leave exactly
one line for it, with quantity q1 + q2. -/
theorem addItem_twice_merges (state : CartState) (i1 i2 : CartItem)
    (hid : i2.id = i1.id)
    (habs : ∀ it ∈ state.items, (it.id == i1.id) = false) :
    ((cartReducer (cartReducer state (.add i1)) (.add i2)).items.filter
      (fun it => it.id == i1.id)) =
      [{ i1 with quantity := i1.quantity + i2.quantity }] := by
  have hfind1 : state.items.find? (fun entry => entry.id == i1.id) = none :=
    List.find?_eq_none.2 (fun x hx => by simp [habs x hx])
  have hfind2 :
      (state.items ++ [i1]).find? (fun entry => entry.id == i2.id) = some i1 := by
    simp only [hid]
    rw [List.find?_append, hfind1]
    simp [List.find?]
  have h2 : (cartReducer (cartReducer state (.add i1)) (.add i2)).items =
      (state.items ++ [i1]).map (fun entry =>
        if entry.id == i2.id then
          { entry with quantity := entry.quantity + i2.quantity }
        else entry) := by
    simp only [cartReducer, hfind1, hfind2]
  rw [h2, List.map_append]
  have hmapbase : state.items.map (fun entry =>
      if entry.id == i2.id then
        { entry with quantity := entry.quantity + i2.quantity }
      else entry) = state.items := by
    conv_rhs => rw [← List.map_id state.items]
    refine List.map_congr_left (fun x hx => ?_)
    rw [hid, habs x hx]
    simp
  have hmaplast : [i1].map (fun entry =>
      if entry.id == i2.id then
        { entry with quantity := entry.quantity + i2.quantity }
      else entry) = [{ i1 with quantity := i1.quantity + i2.quantity }] := by
    simp [hid]
  rw [hmapbase, hmaplast, List.filter_append]
  have hfilterbase :
      state.items.filter (fun it => it.id == i1.id) = [] :=
    List.filter_eq_nil_iff.2 (fun x hx => by simp [habs x hx])
  rw [hfilterbase]
  simp

/-- The cart state the C8 counterexample starts from: it already holds a
`cake-1` line with quantity 5. -/
def addTwiceBase : CartState :=
  { items := [{ id := "cake-1", name := "Cake", price := 1000, quantity := 5 }] }

/-- C8 counterexample: over a state that already contains the product,
two `addItem` calls with quantities 1 and 1 leave the line at quantity 7,
not q1 + q2 = 2 — the claim fails for an arbitrary cart state. -/
theorem addItem_twice_merges_counterexample :
    ((cartReducer (cartReducer addTwiceBase
        (.add { id := "cake-1", name := "Cake", price := 1000, quantity := 1 }))
        (.add { id := "cake-1", name := "Cake", price := 1000, quantity := 1 })).items.map
        (fun it => it.quantity)) = [7]
    ∧ ¬ ((7 : Int) = 1 + 1) := by
  constructor
  · rfl
  · decide

/-- C8 witness: from a state holding only an unrelated line `b`, adding
`cake-1` with quantities 2 and then 3 yields exactly one `cake-1` line of
quantity 5. -/
theorem addItem_twice_merges_witness :
    ((cartReducer (cartReducer
        { items := [{ id := "b", name := "B", price := 500, quantity := 1 }] }
        (.add { id := "cake-1", name := "Cake", price := 1000, quantity := 2 }))
        (.add { id := "cake-1", name := "Cake", price := 1000, quantity := 3 })).items.filter
      (fun it => it.id == "cake-1")) =
      [{ id := "cake-1", name := "Cake", price := 1000, quantity := 2 + 3 }] :=
  addItem_twice_merges
    { items := [{ id := "b", name := "B", price := 500, quantity := 1 }] }
    { id := "cake-1", name := "Cake", price := 1000, quantity := 2 }
    { id := "cake-1", name := "Cake", price := 1000, quantity := 3 }
    rfl (by decide)

/-- The reducer actions the claim allows to touch cartId/cartToken: those
dispatched by `clearCart`, by `syncCart` (`SYNCING`, `RESET_IDENTIFIERS`)
and the server-apply action. -/
def isClaimedIdentifierAction : CartAction → Bool
  | .clear => true
  | .syncing _ => true
  | .resetIdentifiers => true
  | .applyServer _ _ => true
  | _ => false

/-- The reducer actions that can actually write cartId/cartToken: the
claimed ones plus `RESTORE`, which rehydrates the persisted state. -/
def isIdentifierWriter : CartAction → Bool
  | .clear => true
  | .resetIdentifiers => true
  | .applyServer _ _ => true
  | .restore _ => true
  | _ => false

/-- C10 (amended): `addItem`/`removeItem`/`updateQuantity` leave cartId,
cartToken and the syncing flag unchanged and reset totals to `undefined`;
and any action other than clear, reset-identifiers, server-apply and the
local-storage `RESTORE` leaves cartId and cartToken unchanged. -/
theorem local_edit_frame (state : CartState) (a : CartAction) :
    (isLocalEdit a = true →
      (cartReducer state a).cartId = state.cartId
      ∧ (cartReducer state a).cartToken = state.cartToken
      ∧ (cartReducer state a).syncing = state.syncing
      ∧ (cartReducer state a).totals = none)
    ∧ (isIdentifierWriter a = false →
      (cartReducer state a).cartId = state.cartId
      ∧ (cartReducer state a).cartToken = state.cartToken) := by
  cases a <;> simp [cartReducer, isLocalEdit, isIdentifierWriter]

/-- C10 counterexample: the `RESTORE` action is none of clearCart,
syncCart or server-apply, yet it overwrites `cartId` — the "only" clause
of the claim fails on it. -/
theorem local_edit_frame_counterexample :
    isClaimedIdentifierAction (.restore initialState) = false
    ∧ (cartReducer { items := [], cartId := some "cart-1", cartToken := some "tok-1",
                     totals := none, syncing := false }
        (.restore initialState)).cartId
      ≠ ({ items := [], cartId := some "cart-1", cartToken := some "tok-1",
           totals := none, syncing := false } : CartState).cartId := by
  constructor
  · rfl
  · decide

/-- C10 witness: an `ADD` on a synced cart keeps identifiers and the
syncing flag, resets totals, and the `SYNCING` action (not an identifier
writer) keeps identifiers too. -/
theorem local_edit_frame_witness :
    ((cartReducer
        { items := [], cartId := some "cart-1", cartToken := some "tok-1",
          totals := some { subtotal := 1, taxes := 1, shipping := 1, total := 3 },
          syncing := false }
        (.add { id := "cake-1", name := "Cake", price := 1000, quantity := 1 })).cartId
        = some "cart-1"
      ∧ (cartReducer
        { items := [], cartId := some "cart-1", cartToken := some "tok-1",
          totals := some { subtotal := 1, taxes := 1, shipping := 1, total := 3 },
          syncing := false }
        (.add { id := "cake-1", name := "Cake", price := 1000, quantity := 1 })).cartToken
        = some "tok-1"
      ∧ (cartReducer
        { items := [], cartId := some "cart-1", cartToken := some "tok-1",
          totals := some { subtotal := 1, taxes := 1, shipping := 1, total := 3 },
          syncing := false }
        (.add { id := "cake-1", name := "Cake", price := 1000, quantity := 1 })).syncing
        = false
      ∧ (cartReducer
        { items := [], cartId := some "cart-1", cartToken := some "tok-1",
          totals := some { subtotal := 1, taxes := 1, shipping := 1, total := 3 },
          syncing := false }
        (.add { id := "cake-1", name := "Cake", price := 1000, quantity := 1 })).totals
        = none)
    ∧ ((cartReducer
        { items := [], cartId := some "cart-1", cartToken := some "tok-1",
          totals := none, syncing := false } (.syncing true)).cartId = some "cart-1"
      ∧ (cartReducer
        { items := [], cartId := some "cart-1", cartToken := some "tok-1",
          totals := none, syncing := false } (.syncing true)).cartToken = some "tok-1") := by
  constructor
  · exact (local_edit_frame
      { items := [], cartId := some "cart-1", cartToken := some "tok-1",
        totals := some { subtotal := 1, taxes := 1, shipping := 1, total := 3 },
        syncing := false }
      (.add { id := "cake-1", name := "Cake", price := 1000, quantity := 1 })).1 rfl
  · exact (local_edit_frame
      { items := [], cartId := some "cart-1", cartToken := some "tok-1",
        totals := none, syncing := false } (.syncing true)).2 rfl

/-- C2 (amended): the order-creation request carries the idempotency key
only in the JSON body's `idempotency_key` field; `createOrder` passes no
options to `post`, so no `Idempotency-Key` header is attached for any base
url, bearer token or payload. -/
theorem createOrder_idempotency_body_only (base : String) (tok : Option String)
    (p : OrderCreatePayload) :
    (createOrderRequest base tok p).body.idempotency_key = p.idempotencyKey
    ∧ headersGet (createOrderRequest base tok p).headers "Idempotency-Key" = none := by
  refine ⟨rfl, ?_⟩
  cases tok with
  | none => rfl
  | some t => rfl

/-- C2 counterexample: a concrete order-creation request (with a bearer
token set) has no `Idempotency-Key` header — its headers are exactly
`Content-Type` and `Authorization` — although the body carries the key. -/
theorem createOrder_idempotency_header_missing :
    headersGet (createOrderRequest "" (some "token-1")
      { cartId := "cart-1", idempotencyKey := "uuid-1" }).headers "Idempotency-Key" = none
    ∧ (createOrderRequest "" (some "token-1")
        { cartId := "cart-1", idempotencyKey := "uuid-1" }).headers
      = [("Content-Type", "application/json"), ("Authorization", "Bearer token-1")]
    ∧ (createOrderRequest "" (some "token-1")
        { cartId := "cart-1", idempotencyKey := "uuid-1" }).body.idempotency_key
      = "uuid-1" := by
  exact ⟨rfl, rfl, rfl⟩

end Aleenas
